import Mathlib

/-
Verification of the AxisInfo dataflow analysis (lib/Analysis/AxisInfo.cpp).

The embedding models the per-value lattice element `AxisInfo`, its `join`,
the operation-specific transfer functions (add, sub, mul, div, rem, cmp,
select, make-range, constant, splat, broadcast, expand-dims, bitwise), the
entry-point visit step, and the alignment queries.  Machine `int64_t`
arithmetic is modelled by `Int`, with C's truncated division and remainder
(`Int.tdiv`, `Int.tmod`) where the source uses `/` and `%`, and the
`(uint64_t)` casts of the compare visitor modelled by `x.emod (2 ^ 64)`.
-/

namespace AxisInfoModel

/-- Source `gcdImpl` (extended Euclid): returns the gcd together with the
Bezout coefficients that the C++ code writes through its `x`/`y` out
parameters.  C's `%` and `/` on `int64_t` are truncated, hence `Int.tmod`
and `Int.tdiv`. -/
def gcdImpl (a b : Int) : Int × Int × Int :=
  if a = 0 then (b, 0, 1)
  else
    let r := gcdImpl (b.tmod a) a
    (r.1, r.2.2 - b.tdiv a * r.2.1, r.2.1)
termination_by a.natAbs
decreasing_by
  rename_i h
  have h1 : (b.tmod a).natAbs = b.natAbs % a.natAbs := by
    cases b <;> cases a <;>
      simp only [Int.tmod, Int.natAbs_neg, Int.natAbs_negSucc] <;> rfl
  rw [h1]
  exact Nat.mod_lt _ (Nat.pos_of_ne_zero fun hz => h (Int.natAbs_eq_zero.mp hz))

/-- Source `gcd`: discards the Bezout coefficients of `gcdImpl`. -/
def gcd (a b : Int) : Int := (gcdImpl a b).1

/-- Per-axis lattice element: one entry per axis in each vector, plus the
optional scalar constant.  The default-constructed `AxisInfo()` of the
source is `unknown` below (rank-0 sentinel). -/
structure AxisInfo where
  contiguity : List Int
  divisibility : List Int
  constancy : List Int
  constantValue : Option Int
deriving Repr, DecidableEq

/-- Source default constructor `AxisInfo()`: the rank-0 "unknown" sentinel. -/
def AxisInfo.unknown : AxisInfo := ⟨[], [], [], none⟩

def AxisInfo.getRank (a : AxisInfo) : Nat := a.contiguity.length

/-- Source `known()`: a real record has nonzero rank (`visitOperation`
tests `curr.getRank() == 0` for the unknown sentinel). -/
def AxisInfo.known (a : AxisInfo) : Bool := a.getRank != 0

def AxisInfo.getContiguity (a : AxisInfo) (d : Nat) : Int := a.contiguity.getD d 1

def AxisInfo.getDivisibility (a : AxisInfo) (d : Nat) : Int := a.divisibility.getD d 1

def AxisInfo.getConstancy (a : AxisInfo) (d : Nat) : Int := a.constancy.getD d 1

def AxisInfo.getConstantValue (a : AxisInfo) : Option Int := a.constantValue

/-- Source `AxisInfo::join`: if exactly one side is unknown return the other;
if both are known take the componentwise gcd of the three vectors and keep
`constantValue` only when both sides hold the same one; the both-unknown
branch is the source's unreachable fallback returning `AxisInfo()`. -/
def AxisInfo.join (lhs rhs : AxisInfo) : AxisInfo :=
  if ¬lhs.known ∧ rhs.known then rhs
  else if lhs.known ∧ ¬rhs.known then lhs
  else if lhs.known ∧ rhs.known then
    { contiguity := List.zipWith gcd lhs.contiguity rhs.contiguity
      divisibility := List.zipWith gcd lhs.divisibility rhs.divisibility
      constancy := List.zipWith gcd lhs.constancy rhs.constancy
      constantValue :=
        match lhs.constantValue, rhs.constantValue with
        | some x, some y => if x = y then some x else none
        | _, _ => none }
  else AxisInfo.unknown

/-- Data-model invariant of the spec: every vector entry is at least 1. -/
def AxisInfo.Valid (a : AxisInfo) : Prop :=
  (∀ x ∈ a.contiguity, 1 ≤ x) ∧ (∀ x ∈ a.divisibility, 1 ≤ x) ∧
    (∀ x ∈ a.constancy, 1 ≤ x)

instance (a : AxisInfo) : Decidable a.Valid := by
  unfold AxisInfo.Valid; infer_instance

/-- Weaker nonnegativity of all vector entries. -/
def AxisInfo.Nonneg (a : AxisInfo) : Prop :=
  (∀ x ∈ a.contiguity, 0 ≤ x) ∧ (∀ x ∈ a.divisibility, 0 ≤ x) ∧
    (∀ x ∈ a.constancy, 0 ≤ x)

instance (a : AxisInfo) : Decidable a.Nonneg := by
  unfold AxisInfo.Nonneg; infer_instance

/- Basic facts about the embedded gcd. -/

theorem gcdImpl_unfold (a b : Int) :
    gcdImpl a b = if a = 0 then (b, 0, 1) else
      let r := gcdImpl (b.tmod a) a
      (r.1, r.2.2 - b.tdiv a * r.2.1, r.2.1) := by
  rw [gcdImpl]

theorem gcd_zero_left_eq (b : Int) : gcd 0 b = b := by
  rw [gcd, gcdImpl_unfold]; simp

theorem gcd_rec_eq {a : Int} (b : Int) (h : a ≠ 0) :
    gcd a b = gcd (b.tmod a) a := by
  rw [gcd, gcd, gcdImpl_unfold]
  simp [h]

theorem natAbs_tmod (b a : Int) : (b.tmod a).natAbs = b.natAbs % a.natAbs := by
  cases b <;> cases a <;>
    simp only [Int.tmod, Int.natAbs_neg, Int.natAbs_negSucc] <;> rfl

/-- On nonnegative inputs the source gcd agrees with the mathematical gcd. -/
theorem gcd_eq_intGcd : ∀ (n : Nat) (a b : Int), a.natAbs ≤ n → 0 ≤ a → 0 ≤ b →
    gcd a b = (Int.gcd a b : Int) := by
  intro n
  induction n with
  | zero =>
    intro a b hle ha hb
    have ha0 : a = 0 := Int.natAbs_eq_zero.mp (Nat.le_zero.mp hle)
    subst ha0
    rw [gcd_zero_left_eq]
    simp [Int.gcd, Int.natAbs_of_nonneg hb]
  | succ n ih =>
    intro a b hle ha hb
    by_cases h : a = 0
    · subst h
      rw [gcd_zero_left_eq]
      simp [Int.gcd, Int.natAbs_of_nonneg hb]
    · rw [gcd_rec_eq b h]
      have hmodAbs : (b.tmod a).natAbs = b.natAbs % a.natAbs := natAbs_tmod b a
      have hapos : 0 < a.natAbs :=
        Nat.pos_of_ne_zero fun hz => h (Int.natAbs_eq_zero.mp hz)
      have hlt : (b.tmod a).natAbs < a.natAbs := by
        rw [hmodAbs]; exact Nat.mod_lt _ hapos
      have hle2 : (b.tmod a).natAbs ≤ n := by omega
      rw [ih (b.tmod a) a hle2 (Int.tmod_nonneg a hb) ha]
      congr 1
      show Nat.gcd (b.tmod a).natAbs a.natAbs = Nat.gcd a.natAbs b.natAbs
      rw [hmodAbs]
      exact (Nat.gcd_rec a.natAbs b.natAbs).symm

theorem gcd_eq (a b : Int) (ha : 0 ≤ a) (hb : 0 ≤ b) :
    gcd a b = (Int.gcd a b : Int) :=
  gcd_eq_intGcd a.natAbs a b le_rfl ha hb

theorem gcd_comm_nonneg (a b : Int) (ha : 0 ≤ a) (hb : 0 ≤ b) :
    gcd a b = gcd b a := by
  rw [gcd_eq a b ha hb, gcd_eq b a hb ha, Int.gcd_comm]

theorem gcd_zero_right_eq (a : Int) (ha : 0 ≤ a) : gcd a 0 = a := by
  rw [gcd_eq a 0 ha le_rfl]
  simp [Int.gcd, Int.natAbs_of_nonneg ha]

theorem gcd_self_eq (a : Int) : gcd a a = a := by
  by_cases h : a = 0
  · subst h; exact gcd_zero_left_eq 0
  · rw [gcd_rec_eq a h, Int.tmod_self, gcd_zero_left_eq]

theorem gcd_nonneg (a b : Int) (ha : 0 ≤ a) (hb : 0 ≤ b) : 0 ≤ gcd a b := by
  rw [gcd_eq a b ha hb]; exact Int.natCast_nonneg _

theorem one_le_gcd {a b : Int} (ha : 1 ≤ a) (hb : 1 ≤ b) : 1 ≤ gcd a b := by
  rw [gcd_eq a b (by omega) (by omega)]
  have : 0 < Int.gcd a b := Int.gcd_pos_iff.mpr (Or.inl (by omega))
  omega

theorem gcd_dvd_left_nonneg (a b : Int) (ha : 0 ≤ a) (hb : 0 ≤ b) :
    gcd a b ∣ a := by
  rw [gcd_eq a b ha hb]; exact Int.gcd_dvd_left

theorem gcd_dvd_right_nonneg (a b : Int) (ha : 0 ≤ a) (hb : 0 ≤ b) :
    gcd a b ∣ b := by
  rw [gcd_eq a b ha hb]; exact Int.gcd_dvd_right

/- Helpers declared in the analysis header (not under src/). -/

/-- Modelled from the spec: the largest power of two dividing a nonzero
number, with the statically-zero case mapped to a large sentinel cap (the
spec's "capped sentinel such as the largest representable power of two");
declared as `highestPowOf2Divisor` in the analysis header, which is not
under src/. -/
def lowBitNat (n : Nat) : Nat :=
  if h : n = 0 then 1
  else if n % 2 = 0 then 2 * lowBitNat (n / 2) else 1
termination_by n
decreasing_by exact Nat.div_lt_self (Nat.pos_of_ne_zero h) (by omega)

/-- Modelled from the spec: see `lowBitNat`; on a nonzero input this is the
largest power of two dividing its absolute value, and the zero input gets
the sentinel cap `2 ^ 62`. -/
def highestPowOf2Divisor (n : Int) : Int :=
  if n = 0 then 2 ^ 62 else (lowBitNat n.natAbs : Int)

/-- Modelled from the spec: "lhs is fully contiguous along axis d" — the
axis contiguity equals the axis extent; declared as
`AxisInfoVisitor::isContiguousDim` in the analysis header, which is not
under src/. -/
def isContiguousDim (info : AxisInfo) (shape : List Int) (d : Nat) : Bool :=
  info.getContiguity d == shape.getD d 1

/-- Modelled from the spec: "rhs is fully constant along axis d" — the axis
constancy equals the axis extent; declared as
`AxisInfoVisitor::isConstantDim` in the analysis header, which is not under
src/. -/
def isConstantDim (info : AxisInfo) (shape : List Int) (d : Nat) : Bool :=
  info.getConstancy d == shape.getD d 1

/- Transfer functions (lib/Analysis/AxisInfo.cpp). -/

namespace AddOpVisitor

/-- Source `AddOpAxisInfoVisitor::getContiguity`. -/
def getContiguity (lhs rhs : AxisInfo) (d : Nat) : Int :=
  max (gcd (lhs.getConstancy d) (rhs.getContiguity d))
    (gcd (lhs.getContiguity d) (rhs.getConstancy d))

/-- Source `AddOpAxisInfoVisitor::getDivisibility`. -/
def getDivisibility (lhs rhs : AxisInfo) (d : Nat) : Int :=
  gcd (lhs.getDivisibility d) (rhs.getDivisibility d)

/-- Source `AddOpAxisInfoVisitor::getConstancy`. -/
def getConstancy (lhs rhs : AxisInfo) (d : Nat) : Int :=
  gcd (lhs.getConstancy d) (rhs.getConstancy d)

/-- Source `AddOpAxisInfoVisitor::getConstantValue`. -/
def getConstantValue (lhs rhs : AxisInfo) : Option Int :=
  match lhs.getConstantValue, rhs.getConstantValue with
  | some x, some y => some (x + y)
  | _, _ => none

end AddOpVisitor

namespace SubOpVisitor

/-- Source `SubOpAxisInfoVisitor::getContiguity`. -/
def getContiguity (lhs rhs : AxisInfo) (d : Nat) : Int :=
  max (gcd (lhs.getConstancy d) (rhs.getContiguity d))
    (gcd (lhs.getContiguity d) (rhs.getConstancy d))

/-- Source `SubOpAxisInfoVisitor::getDivisibility`. -/
def getDivisibility (lhs rhs : AxisInfo) (d : Nat) : Int :=
  gcd (lhs.getDivisibility d) (rhs.getDivisibility d)

/-- Source `SubOpAxisInfoVisitor::getConstancy`. -/
def getConstancy (lhs rhs : AxisInfo) (d : Nat) : Int :=
  gcd (lhs.getConstancy d) (rhs.getConstancy d)

/-- Source `SubOpAxisInfoVisitor::getConstantValue`. -/
def getConstantValue (lhs rhs : AxisInfo) : Option Int :=
  match lhs.getConstantValue, rhs.getConstantValue with
  | some x, some y => some (x - y)
  | _, _ => none

end SubOpVisitor

namespace MulIOpVisitor

/-- Source `MulIOpAxisInfoVisitor::getContiguity`. -/
def getContiguity (lhs rhs : AxisInfo) (d : Nat) : Int :=
  let lhsContiguity :=
    if rhs.getConstantValue = some 1 then lhs.getContiguity d else 1
  let rhsContiguity :=
    if lhs.getConstantValue = some 1 then rhs.getContiguity d else 1
  max lhsContiguity rhsContiguity

/-- Source `MulIOpAxisInfoVisitor::getConstancy`. -/
def getConstancy (lhs rhs : AxisInfo) (d : Nat) : Int :=
  gcd (lhs.getConstancy d) (rhs.getConstancy d)

/-- Source `MulIOpAxisInfoVisitor::getDivisibility`. -/
def getDivisibility (lhs rhs : AxisInfo) (d : Nat) : Int :=
  lhs.getDivisibility d * rhs.getDivisibility d

/-- Source `MulIOpAxisInfoVisitor::getConstantValue`. -/
def getConstantValue (lhs rhs : AxisInfo) : Option Int :=
  match lhs.getConstantValue, rhs.getConstantValue with
  | some x, some y => some (x * y)
  | _, _ => none

end MulIOpVisitor

namespace DivOpVisitor

/-- Source `DivOpAxisInfoVisitor::getContiguity`: `lhs / 1 = lhs`. -/
def getContiguity (lhs rhs : AxisInfo) (d : Nat) : Int :=
  if rhs.getConstantValue = some 1 then lhs.getContiguity d else 1

/-- Source `DivOpAxisInfoVisitor::getConstancy`; when the result type is not
a ranked tensor (`resShape = none`) the source falls back to the header's
`BinaryOpVisitorImpl::getConstancy`, modelled from the spec as the baseline
1. -/
def getConstancy (resShape : Option (List Int)) (lhs rhs : AxisInfo)
    (d : Nat) : Int :=
  match resShape with
  | none => 1
  | some shape =>
    let constancy := gcd (lhs.getConstancy d) (rhs.getConstancy d)
    if isContiguousDim lhs shape d ∧ isConstantDim rhs shape d then
      max constancy
        (gcd (lhs.getContiguity d)
          (gcd (lhs.getDivisibility d) (rhs.getDivisibility d)))
    else constancy

/-- Source `DivOpAxisInfoVisitor::getDivisibility`. -/
def getDivisibility (lhs rhs : AxisInfo) (d : Nat) : Int :=
  let lhsDivisibility := lhs.getDivisibility d
  let rhsDivisibility := rhs.getDivisibility d
  let initGcd := gcd lhsDivisibility rhsDivisibility
  gcd (lhsDivisibility.tdiv initGcd) (rhsDivisibility.tdiv initGcd)

/-- Source `DivOpAxisInfoVisitor::getConstantValue`: evaluates the quotient
whenever both operands carry a constant, with no divisor-zero guard. -/
def getConstantValue (lhs rhs : AxisInfo) : Option Int :=
  match lhs.getConstantValue, rhs.getConstantValue with
  | some x, some y => some (x.tdiv y)
  | _, _ => none

end DivOpVisitor

namespace RemOpVisitor

/-- Source `RemOpAxisInfoVisitor::getContiguity`; when the result type is
not a ranked tensor the source falls back to the header's
`BinaryOpVisitorImpl::getContiguity`, modelled from the spec as the
baseline 1. -/
def getContiguity (resShape : Option (List Int)) (lhs rhs : AxisInfo)
    (d : Nat) : Int :=
  match resShape with
  | none => 1
  | some shape =>
    let contiguity : Int := 1
    if isContiguousDim lhs shape d ∧ isConstantDim rhs shape d then
      max contiguity
        (gcd (lhs.getContiguity d)
          (gcd (lhs.getDivisibility d) (rhs.getDivisibility d)))
    else contiguity

/-- Source `RemOpAxisInfoVisitor::getDivisibility`. -/
def getDivisibility (lhs rhs : AxisInfo) (d : Nat) : Int :=
  gcd (lhs.getDivisibility d) (rhs.getDivisibility d)

/-- Source `RemOpAxisInfoVisitor::getConstancy`. -/
def getConstancy (lhs rhs : AxisInfo) (d : Nat) : Int :=
  gcd (lhs.getConstancy d) (rhs.getConstancy d)

/-- Source `RemOpAxisInfoVisitor::getConstantValue`: evaluates the remainder
whenever both operands carry a constant, with no divisor-zero guard. -/
def getConstantValue (lhs rhs : AxisInfo) : Option Int :=
  match lhs.getConstantValue, rhs.getConstantValue with
  | some x, some y => some (x.tmod y)
  | _, _ => none

end RemOpVisitor

/-- Integer comparison predicates of the host dialect. -/
inductive CmpIPredicate where
  | eq | ne | slt | sle | sgt | sge | ult | ule | ugt | uge
deriving DecidableEq, Repr

/-- Reinterpretation of a 64-bit two's-complement value as `uint64_t`,
for the unsigned comparisons. -/
def toUnsigned (x : Int) : Int := x.emod (2 ^ 64)

namespace CmpOpVisitor

/-- Source `CmpOpAxisInfoVisitor::notGePredicate`. -/
def notGePredicate (p : CmpIPredicate) : Bool :=
  p != CmpIPredicate.sge && p != CmpIPredicate.uge

/-- Source `CmpOpAxisInfoVisitor::notSePredicate`. -/
def notSePredicate (p : CmpIPredicate) : Bool :=
  p != CmpIPredicate.sle && p != CmpIPredicate.ule

/-- Source `CmpOpAxisInfoVisitor::compare`, with the `(uint64_t)` casts of
the unsigned cases modelled by `toUnsigned`. -/
def compare (p : CmpIPredicate) (lhs rhs : Int) : Bool :=
  match p with
  | CmpIPredicate.eq => lhs == rhs
  | CmpIPredicate.ne => lhs != rhs
  | CmpIPredicate.slt => decide (lhs < rhs)
  | CmpIPredicate.sle => decide (lhs ≤ rhs)
  | CmpIPredicate.sgt => decide (lhs > rhs)
  | CmpIPredicate.sge => decide (lhs ≥ rhs)
  | CmpIPredicate.ult => decide (toUnsigned lhs < toUnsigned rhs)
  | CmpIPredicate.ule => decide (toUnsigned lhs ≤ toUnsigned rhs)
  | CmpIPredicate.ugt => decide (toUnsigned lhs > toUnsigned rhs)
  | CmpIPredicate.uge => decide (toUnsigned lhs ≥ toUnsigned rhs)

/-- Source `CmpOpAxisInfoVisitor::getAxisInfo`: `resShape` is the result's
shape when the result is a ranked tensor, `none` otherwise (in which case
the source returns `AxisInfo()`). -/
def getAxisInfo (resShape : Option (List Int)) (pred : CmpIPredicate)
    (lhsInfo rhsInfo : AxisInfo) : AxisInfo :=
  match resShape with
  | none => AxisInfo.unknown
  | some shape =>
    let rank := shape.length
    let constHintAt : Nat → Int := fun d =>
      if lhsInfo.getConstantValue.isSome ∧ rhsInfo.getConstantValue.isSome then
        lhsInfo.getConstancy d
      else
        let constHint := gcd (lhsInfo.getConstancy d) (rhsInfo.getConstancy d)
        if (notGePredicate pred ∧ isContiguousDim lhsInfo shape d ∧
              isConstantDim rhsInfo shape d) ∨
            (notSePredicate pred ∧ isConstantDim lhsInfo shape d ∧
              isContiguousDim rhsInfo shape d) then
          max constHint
            (gcd (lhsInfo.getContiguity d)
              (gcd (lhsInfo.getDivisibility d) (rhsInfo.getDivisibility d)))
        else constHint
    let constantValue : Option Int :=
      if rank ≠ 0 then
        match lhsInfo.getConstantValue, rhsInfo.getConstantValue with
        | some x, some y => some (if compare pred x y then 1 else 0)
        | _, _ => none
      else none
    { contiguity := List.replicate rank 1
      divisibility := List.replicate rank 1
      constancy := (List.range rank).map constHintAt
      constantValue := constantValue }

end CmpOpVisitor

namespace SelectOpVisitor

/-- Source `SelectOpAxisInfoVisitor::getAxisInfo`: `resShape` is the
result's shape when the result is a ranked tensor, `none` otherwise (in
which case the source returns `AxisInfo()`). -/
def getAxisInfo (resShape : Option (List Int))
    (condInfo lhsInfo rhsInfo : AxisInfo) : AxisInfo :=
  match resShape with
  | none => AxisInfo.unknown
  | some shape =>
    let rank := shape.length
    let condConstancy := condInfo.constancy
    if condInfo.getConstantValue.isSome then
      if condInfo.getConstantValue = some 0 then
        { contiguity := rhsInfo.contiguity
          divisibility := rhsInfo.divisibility
          constancy := rhsInfo.constancy
          constantValue := rhsInfo.getConstantValue }
      else
        { contiguity := lhsInfo.contiguity
          divisibility := lhsInfo.divisibility
          constancy := lhsInfo.constancy
          constantValue := lhsInfo.getConstantValue }
    else
      { contiguity := (List.range rank).map fun d =>
          min (gcd (lhsInfo.getContiguity d) (condConstancy.getD d 1))
            (gcd (rhsInfo.getContiguity d) (condConstancy.getD d 1))
        divisibility := (List.range rank).map fun d =>
          min (lhsInfo.getDivisibility d) (rhsInfo.getDivisibility d)
        constancy := (List.range rank).map fun d =>
          min (gcd (lhsInfo.getConstancy d) (condConstancy.getD d 1))
            (gcd (rhsInfo.getConstancy d) (condConstancy.getD d 1))
        constantValue :=
          match lhsInfo.getConstantValue, rhsInfo.getConstantValue with
          | some x, some y => if x = y then some x else none
          | _, _ => none }

end SelectOpVisitor

/-- Source `CastOpAxisInfoVisitor::getAxisInfo`: identity-preserving casts
return the operand's record unchanged. -/
def castAxisInfo (opInfo : AxisInfo) : AxisInfo := opInfo

/-- Source `MakeRangeOpAxisInfoVisitor::getAxisInfo` for the range
`[s, e)`. -/
def makeRangeAxisInfo (s e : Int) : AxisInfo :=
  { contiguity := [e - s]
    divisibility := [highestPowOf2Divisor s]
    constancy := [1]
    constantValue := none }

/-- Source `ConstantOpAxisInfoVisitor::getAxisInfo`, scalar integer or
boolean case (the stored value is read with `getZExtValue`). -/
def constantScalarAxisInfo (v : Int) : AxisInfo :=
  { contiguity := [1]
    divisibility := [highestPowOf2Divisor v]
    constancy := [1]
    constantValue := some v }

/-- Source `ConstantOpAxisInfoVisitor::getAxisInfo`, splat-tensor case. -/
def constantSplatAxisInfo (v : Int) (shape : List Int) : AxisInfo :=
  { contiguity := shape.map fun _ => 1
    divisibility := shape.map fun _ => highestPowOf2Divisor v
    constancy := shape
    constantValue := some v }

/-- Source `SplatOpAxisInfoVisitor::getAxisInfo`. -/
def splatAxisInfo (retShape : List Int) (opInfo : AxisInfo) : AxisInfo :=
  { contiguity := retShape.map fun _ => 1
    divisibility := retShape.map fun _ => opInfo.getDivisibility 0
    constancy := retShape
    constantValue := opInfo.getConstantValue }

/-- Source `ExpandDimsOpAxisInfoVisitor::getAxisInfo` (insert a unit axis at
position `axis` in all three vectors). -/
def expandDimsAxisInfo (axis : Nat) (opInfo : AxisInfo) : AxisInfo :=
  { contiguity := opInfo.contiguity.insertIdx axis 1
    divisibility := opInfo.divisibility.insertIdx axis 1
    constancy := opInfo.constancy.insertIdx axis 1
    constantValue := opInfo.getConstantValue }

/-- Source `BroadcastOpAxisInfoVisitor::getAxisInfo`. -/
def broadcastAxisInfo (retShape opShape : List Int) (opInfo : AxisInfo) :
    AxisInfo :=
  { contiguity := (List.range retShape.length).map fun d =>
      if opShape.getD d 1 = 1 then 1 else opInfo.getContiguity d
    divisibility := (List.range retShape.length).map fun d =>
      opInfo.getDivisibility d
    constancy := (List.range retShape.length).map fun d =>
      if opShape.getD d 1 = 1 then retShape.getD d 1 else opInfo.getConstancy d
    constantValue := opInfo.getConstantValue }

namespace BitwiseOpVisitor

/-- Source `AndIOpAxisInfoVisitor::getConstancy` (shared by the or/xor
visitors). -/
def getConstancy (lhs rhs : AxisInfo) (d : Nat) : Int :=
  gcd (lhs.getConstancy d) (rhs.getConstancy d)

/-- Modelled from the spec: the contiguity and divisibility of the bitwise
visitors come from the header's `BinaryOpVisitorImpl` baseline 1 ("unchanged
(1)"); the header is not under src/. -/
def getContiguity (_lhs _rhs : AxisInfo) (_d : Nat) : Int := 1

/-- Modelled from the spec: see `getContiguity`. -/
def getDivisibility (_lhs _rhs : AxisInfo) (_d : Nat) : Int := 1

/-- Source `AndIOpAxisInfoVisitor::getConstantValue`. -/
def andConstantValue (lhs rhs : AxisInfo) : Option Int :=
  match lhs.getConstantValue, rhs.getConstantValue with
  | some x, some y => some (Int.land x y)
  | _, _ => none

/-- Source `OrIOpAxisInfoVisitor::getConstantValue`. -/
def orConstantValue (lhs rhs : AxisInfo) : Option Int :=
  match lhs.getConstantValue, rhs.getConstantValue with
  | some x, some y => some (Int.lor x y)
  | _, _ => none

/-- Source `XorIOpAxisInfoVisitor::getConstantValue`. -/
def xorConstantValue (lhs rhs : AxisInfo) : Option Int :=
  match lhs.getConstantValue, rhs.getConstantValue with
  | some x, some y => some (Int.xor x y)
  | _, _ => none

end BitwiseOpVisitor

/-- Modelled from the spec: transfer functions are "pure, per-axis" (§4.3);
the loop of the header's `BinaryOpVisitorImpl::getAxisInfo` that assembles
the per-axis hook results into one record, iterating over the operand rank,
lives in the analysis header, which is not under src/. -/
def binGetAxisInfo (contF divF conF : AxisInfo → AxisInfo → Nat → Int)
    (cvF : AxisInfo → AxisInfo → Option Int) (lhs rhs : AxisInfo) : AxisInfo :=
  { contiguity := (List.range lhs.getRank).map (contF lhs rhs)
    divisibility := (List.range lhs.getRank).map (divF lhs rhs)
    constancy := (List.range lhs.getRank).map (conF lhs rhs)
    constantValue := cvF lhs rhs }

/- Entry point and the permanently-fixed pessimistic default. -/

/-- Source `AxisInfo::getPessimisticValueState` for a value with no
divisibility hint: rank-many all-1 vectors and no constant. -/
def pessimistic (rank : Nat) : AxisInfo :=
  { contiguity := List.replicate rank 1
    divisibility := List.replicate rank 1
    constancy := List.replicate rank 1
    constantValue := none }

/-- Modelled from the spec: the external framework's per-value lattice slot,
an AxisInfo plus the "permanently fixed" mark set by
`markAllPessimisticFixpoint`; the framework is outside this repository and
is described by the spec's contract (§4.2, §8). -/
structure LatticeSlot where
  value : AxisInfo
  fixed : Bool
deriving Repr, DecidableEq

/-- Modelled from the spec: joining into a lattice slot; a permanently
fixed slot is never refined. -/
def joinSlot (e : LatticeSlot) (a : AxisInfo) : LatticeSlot :=
  if e.fixed then e else { value := AxisInfo.join e.value a, fixed := false }

/-- Source `AxisInfoAnalysis::visitOperation` for one result of rank `rank`:
if the visitors produced the unknown sentinel (`curr.getRank() == 0`), mark
the result's slot pessimistic and permanently fixed (the framework's
`markAllPessimisticFixpoint`, modelled from the spec); otherwise join `curr`
into the slot. -/
def visitStep (rank : Nat) (e : LatticeSlot) (curr : AxisInfo) : LatticeSlot :=
  if curr.getRank = 0 then
    if e.fixed then e else { value := pessimistic rank, fixed := true }
  else joinSlot e curr

/- Alignment / vector-width queries. -/

/-- Layout and lattice data of a ranked-tensor value as the three queries
read it: the axis order (fastest-varying first), the shape, the per-thread
size along the fastest axis, and the value's converged AxisInfo. -/
structure TensorValueInfo where
  order : List Nat
  shape : List Int
  sizePerThreadFastest : Int
  axisInfo : AxisInfo
deriving Repr

/-- Source `AxisInfoAnalysis::getPtrAlignment`; `none` models a value whose
type is not a ranked tensor. -/
def getPtrAlignment (v : Option TensorValueInfo) : Int :=
  match v with
  | none => 1
  | some t =>
    let order0 := t.order.getD 0 0
    let maxMultiple := t.axisInfo.getDivisibility order0
    let maxContig := t.axisInfo.getContiguity order0
    min maxMultiple maxContig

/-- Source `AxisInfoAnalysis::getPtrVectorSize`. -/
def getPtrVectorSize (v : Option TensorValueInfo) : Int :=
  match v with
  | none => 1
  | some t =>
    let order0 := t.order.getD 0 0
    let align := getPtrAlignment (some t)
    let vec := min align t.sizePerThreadFastest
    min (t.shape.getD order0 1) vec

/-- Source `AxisInfoAnalysis::getMaskAlignment`. -/
def getMaskAlignment (v : Option TensorValueInfo) : Int :=
  match v with
  | none => 1
  | some t =>
    let order0 := t.order.getD 0 0
    max (t.axisInfo.getConstancy order0) 1

/- Claim theorems. -/

/-- C1: the claim says that with both constants known and a statically-zero
divisor the divide/remainder transfer functions withhold `constantValue`.
The source has no zero-divisor guard: `getConstantValue` evaluates
`value() / value()` (resp. `%`) unconditionally, so on a zero divisor it
performs the division instead of leaving the constant absent (in C++ this
division is undefined behavior).  This theorem evaluates the embedded code
at the failing input: the result constant is present, not absent. -/
theorem div_rem_by_zero_still_evaluates :
    DivOpVisitor.getConstantValue ⟨[1], [1], [1], some 7⟩ ⟨[1], [1], [1], some 0⟩
        = some ((7 : Int).tdiv 0) ∧
      RemOpVisitor.getConstantValue ⟨[1], [1], [1], some 7⟩ ⟨[1], [1], [1], some 0⟩
        = some ((7 : Int).tmod 0) ∧
      (DivOpVisitor.getConstantValue ⟨[1], [1], [1], some 7⟩
          ⟨[1], [1], [1], some 0⟩).isSome = true ∧
      (RemOpVisitor.getConstantValue ⟨[1], [1], [1], some 7⟩
          ⟨[1], [1], [1], some 0⟩).isSome = true := by
  refine ⟨rfl, rfl, rfl, rfl⟩

/-- C2 counterexample: with lhs fully contiguous (contiguity 4 on a length-4
axis, divisibility 4) and rhs fully constant (constancy 4, divisibility 4,
no constant value), the claim's formula gives contiguity
`gcd(4, gcd(4, 4)) = 4` for the divide result, but the source's
`DivOpAxisInfoVisitor::getContiguity` returns 1 (it only raises contiguity
when the rhs is the constant 1). -/
theorem div_contiguity_counterexample :
    DivOpVisitor.getContiguity ⟨[4], [4], [1], none⟩ ⟨[1], [4], [4], none⟩ 0 = 1 ∧
      isContiguousDim ⟨[4], [4], [1], none⟩ [4] 0 = true ∧
      isConstantDim ⟨[1], [4], [4], none⟩ [4] 0 = true ∧
      gcd (AxisInfo.getContiguity ⟨[4], [4], [1], none⟩ 0)
          (gcd (AxisInfo.getDivisibility ⟨[4], [4], [1], none⟩ 0)
            (AxisInfo.getDivisibility ⟨[1], [4], [4], none⟩ 0)) = 4 ∧
      (1 : Int) ≠ 4 := by
  refine ⟨rfl, rfl, rfl, ?_, by decide⟩
  show gcd 4 (gcd 4 4) = 4
  rw [gcd_self_eq, gcd_self_eq]

/-- C2 amended: the divide transfer function's contiguity is
`contiguityL[d]` when the rhs has constant value 1 and 1 otherwise; the
`gcd(contL, gcd(divL, divR))` raise under "lhs fully contiguous, rhs fully
constant" applies to the divide result's constancy and to the remainder
result's contiguity. -/
theorem div_rem_contiguity_amended (shape : List Int) (lhs rhs : AxisInfo)
    (d : Nat) :
    DivOpVisitor.getContiguity lhs rhs d =
        (if rhs.getConstantValue = some 1 then lhs.getContiguity d else 1) ∧
      DivOpVisitor.getConstancy (some shape) lhs rhs d =
        (if isContiguousDim lhs shape d ∧ isConstantDim rhs shape d then
          max (gcd (lhs.getConstancy d) (rhs.getConstancy d))
            (gcd (lhs.getContiguity d)
              (gcd (lhs.getDivisibility d) (rhs.getDivisibility d)))
        else gcd (lhs.getConstancy d) (rhs.getConstancy d)) ∧
      RemOpVisitor.getContiguity (some shape) lhs rhs d =
        (if isContiguousDim lhs shape d ∧ isConstantDim rhs shape d then
          max 1
            (gcd (lhs.getContiguity d)
              (gcd (lhs.getDivisibility d) (rhs.getDivisibility d)))
        else 1) := by
  refine ⟨rfl, rfl, rfl⟩

/-- C5 counterexample: on operands (contiguity 4, divisibility 8,
constancy 1) and (contiguity 1, divisibility 4, constancy 1), the claim
asserts result contiguity 4, but the source's add contiguity
`max(gcd(constL, contR), gcd(contL, constR)) = max(gcd(1,1), gcd(4,1))`
is 1. -/
theorem add_example_contiguity_counterexample :
    AddOpVisitor.getContiguity ⟨[4], [8], [1], none⟩ ⟨[1], [4], [1], none⟩ 0 = 1 ∧
      (1 : Int) ≠ 4 := by
  constructor
  · show max (gcd 1 1) (gcd 4 1) = 1
    rw [gcd_eq 1 1 (by norm_num) (by norm_num), gcd_eq 4 1 (by norm_num) (by norm_num)]
    decide
  · decide

/-- C5 amended: the add and sub transfer functions have contiguity
`max(gcd(constancyL, contiguityR), gcd(contiguityL, constancyR))`,
divisibility `gcd(divL, divR)`, constancy `gcd(constL, constR)`, and the
constant value is the sum (resp. difference) exactly when both operand
constants are present; the operands (contiguity 4, divisibility 8,
constancy 1) and (contiguity 1, divisibility 4, constancy 1) yield
contiguity 1 (not 4), divisibility 4, constancy 1. -/
theorem add_sub_transfer_amended (lhs rhs : AxisInfo) (d : Nat) :
    (AddOpVisitor.getContiguity lhs rhs d =
        max (gcd (lhs.getConstancy d) (rhs.getContiguity d))
          (gcd (lhs.getContiguity d) (rhs.getConstancy d)) ∧
      AddOpVisitor.getDivisibility lhs rhs d =
        gcd (lhs.getDivisibility d) (rhs.getDivisibility d) ∧
      AddOpVisitor.getConstancy lhs rhs d =
        gcd (lhs.getConstancy d) (rhs.getConstancy d) ∧
      SubOpVisitor.getContiguity lhs rhs d =
        max (gcd (lhs.getConstancy d) (rhs.getContiguity d))
          (gcd (lhs.getContiguity d) (rhs.getConstancy d)) ∧
      SubOpVisitor.getDivisibility lhs rhs d =
        gcd (lhs.getDivisibility d) (rhs.getDivisibility d) ∧
      SubOpVisitor.getConstancy lhs rhs d =
        gcd (lhs.getConstancy d) (rhs.getConstancy d)) ∧
    (∀ x y : Int, lhs.getConstantValue = some x → rhs.getConstantValue = some y →
      AddOpVisitor.getConstantValue lhs rhs = some (x + y) ∧
        SubOpVisitor.getConstantValue lhs rhs = some (x - y)) ∧
    ((lhs.getConstantValue = none ∨ rhs.getConstantValue = none) →
      AddOpVisitor.getConstantValue lhs rhs = none ∧
        SubOpVisitor.getConstantValue lhs rhs = none) ∧
    (AddOpVisitor.getContiguity ⟨[4], [8], [1], none⟩ ⟨[1], [4], [1], none⟩ 0 = 1 ∧
      AddOpVisitor.getDivisibility ⟨[4], [8], [1], none⟩ ⟨[1], [4], [1], none⟩ 0 = 4 ∧
      AddOpVisitor.getConstancy ⟨[4], [8], [1], none⟩ ⟨[1], [4], [1], none⟩ 0 = 1) := by
  refine ⟨⟨rfl, rfl, rfl, rfl, rfl, rfl⟩, ?_, ?_, ?_, ?_, ?_⟩
  · intro x y hx hy
    simp [AddOpVisitor.getConstantValue, SubOpVisitor.getConstantValue, hx, hy]
  · rintro (h | h) <;>
      simp [AddOpVisitor.getConstantValue, SubOpVisitor.getConstantValue, h]
  · show max (gcd 1 1) (gcd 4 1) = 1
    rw [gcd_eq 1 1 (by norm_num) (by norm_num), gcd_eq 4 1 (by norm_num) (by norm_num)]
    decide
  · show gcd 8 4 = 4
    rw [gcd_eq 8 4 (by norm_num) (by norm_num)]
    decide
  · show gcd 1 1 = 1
    rw [gcd_eq 1 1 (by norm_num) (by norm_num)]
    decide

/-- Witness for the C5 amended theorem at operands with constants 5 and 3:
the add result constant is 8 and the sub result constant is 2. -/
theorem add_sub_transfer_amended_witness :
    AddOpVisitor.getConstantValue ⟨[1], [1], [1], some 5⟩ ⟨[1], [1], [1], some 3⟩
        = some 8 ∧
      SubOpVisitor.getConstantValue ⟨[1], [1], [1], some 5⟩ ⟨[1], [1], [1], some 3⟩
        = some 2 :=
  (add_sub_transfer_amended ⟨[1], [1], [1], some 5⟩ ⟨[1], [1], [1], some 3⟩ 0).2.1
    5 3 rfl rfl

/-- C6: the multiply transfer function has divisibility
`divisibilityL[d] * divisibilityR[d]` (the exact integer product),
contiguity `max` of `contiguityL[d]`-if-rhs-is-constant-1 and
`contiguityR[d]`-if-lhs-is-constant-1 (each candidate defaulting to 1),
constancy `gcd(constancyL[d], constancyR[d])`, and a constant value equal to
the product exactly when both operand constants are present. -/
theorem mul_transfer_matches_spec (lhs rhs : AxisInfo) (d : Nat) :
    MulIOpVisitor.getDivisibility lhs rhs d =
        lhs.getDivisibility d * rhs.getDivisibility d ∧
      MulIOpVisitor.getContiguity lhs rhs d =
        max (if rhs.getConstantValue = some 1 then lhs.getContiguity d else 1)
          (if lhs.getConstantValue = some 1 then rhs.getContiguity d else 1) ∧
      MulIOpVisitor.getConstancy lhs rhs d =
        gcd (lhs.getConstancy d) (rhs.getConstancy d) ∧
      (∀ x y : Int, lhs.getConstantValue = some x → rhs.getConstantValue = some y →
        MulIOpVisitor.getConstantValue lhs rhs = some (x * y)) ∧
      ((lhs.getConstantValue = none ∨ rhs.getConstantValue = none) →
        MulIOpVisitor.getConstantValue lhs rhs = none) := by
  refine ⟨rfl, rfl, rfl, ?_, ?_⟩
  · intro x y hx hy
    simp [MulIOpVisitor.getConstantValue, hx, hy]
  · rintro (h | h) <;> simp [MulIOpVisitor.getConstantValue, h]

/-- Witness for the C6 theorem at operands with constants 6 and 7: the
multiply result constant is 42, and the formula conjuncts hold at axis 0. -/
theorem mul_transfer_matches_spec_witness :
    MulIOpVisitor.getConstantValue ⟨[1], [2], [1], some 6⟩ ⟨[1], [4], [1], some 7⟩
        = some 42 ∧
      MulIOpVisitor.getDivisibility ⟨[1], [2], [1], some 6⟩
          ⟨[1], [4], [1], some 7⟩ 0 =
        AxisInfo.getDivisibility ⟨[1], [2], [1], some 6⟩ 0 *
          AxisInfo.getDivisibility ⟨[1], [4], [1], some 7⟩ 0 :=
  ⟨(mul_transfer_matches_spec ⟨[1], [2], [1], some 6⟩ ⟨[1], [4], [1], some 7⟩ 0).2.2.2.1
      6 7 rfl rfl,
    (mul_transfer_matches_spec ⟨[1], [2], [1], some 6⟩ ⟨[1], [4], [1], some 7⟩ 0).1⟩

/-- C7: `getPtrAlignment` returns
`min(divisibility[order[0]], contiguity[order[0]])`, `getMaskAlignment`
returns `max(constancy[order[0]], 1)`, and each of the three queries
returns 1 when the queried value is not a ranked tensor. -/
theorem alignment_queries_match_spec (t : TensorValueInfo) :
    getPtrAlignment (some t) =
        min (t.axisInfo.getDivisibility (t.order.getD 0 0))
          (t.axisInfo.getContiguity (t.order.getD 0 0)) ∧
      getMaskAlignment (some t) =
        max (t.axisInfo.getConstancy (t.order.getD 0 0)) 1 ∧
      getPtrAlignment none = 1 ∧
      getMaskAlignment none = 1 ∧
      getPtrVectorSize none = 1 :=
  ⟨rfl, rfl, rfl, rfl, rfl⟩

theorem zipWith_gcd_self (l : List Int) : List.zipWith gcd l l = l := by
  induction l with
  | nil => rfl
  | cons x xs ih => simp [gcd_self_eq, ih]

theorem zipWith_gcd_comm (l1 l2 : List Int) (h1 : ∀ x ∈ l1, 0 ≤ x)
    (h2 : ∀ x ∈ l2, 0 ≤ x) :
    List.zipWith gcd l1 l2 = List.zipWith gcd l2 l1 := by
  induction l1 generalizing l2 with
  | nil => cases l2 <;> rfl
  | cons x xs ih =>
    cases l2 with
    | nil => rfl
    | cons y ys =>
      simp only [List.mem_cons, forall_eq_or_imp] at h1 h2
      simp [gcd_comm_nonneg x y h1.1 h2.1, ih ys h1.2 h2.2]

/-- C4: `join` is commutative on known records of equal rank (with the
spec's invariant that all entries are nonnegative), is idempotent on known
records, maps `(unknown, a)` to `a` for known `a`, and the underlying gcd
satisfies `gcd(x, 0) = x` and symmetry on nonnegative inputs. -/
theorem join_properties :
    (∀ a b : AxisInfo, a.known = true → b.known = true →
        a.getRank = b.getRank → a.Nonneg → b.Nonneg →
        AxisInfo.join a b = AxisInfo.join b a) ∧
      (∀ a : AxisInfo, a.known = true → AxisInfo.join a a = a) ∧
      (∀ a : AxisInfo, a.known = true → AxisInfo.join AxisInfo.unknown a = a) ∧
      (∀ x : Int, 0 ≤ x → gcd x 0 = x) ∧
      (∀ x y : Int, 0 ≤ x → 0 ≤ y → gcd x y = gcd y x) := by
  refine ⟨?_, ?_, ?_, fun x hx => gcd_zero_right_eq x hx,
    fun x y hx hy => gcd_comm_nonneg x y hx hy⟩
  · intro a b ha hb _hrank hna hnb
    unfold AxisInfo.join
    rw [if_neg (by simp [ha]), if_neg (by simp [hb]), if_pos (by simp [ha, hb]),
      if_neg (by simp [hb]), if_neg (by simp [ha]), if_pos (by simp [ha, hb])]
    simp only [AxisInfo.mk.injEq]
    refine ⟨zipWith_gcd_comm _ _ hna.1 hnb.1, zipWith_gcd_comm _ _ hna.2.1 hnb.2.1,
      zipWith_gcd_comm _ _ hna.2.2 hnb.2.2, ?_⟩
    cases a.constantValue with
    | none => cases b.constantValue <;> rfl
    | some x =>
      cases b.constantValue with
      | none => rfl
      | some y =>
        by_cases hxy : x = y
        · subst hxy; simp
        · have hyx : ¬y = x := fun h => hxy h.symm
          simp [hxy, hyx]
  · intro a ha
    unfold AxisInfo.join
    rw [if_neg (by simp [ha]), if_neg (by simp [ha]), if_pos (by simp [ha])]
    obtain ⟨ac, ad, ak, av⟩ := a
    simp only [AxisInfo.mk.injEq]
    refine ⟨zipWith_gcd_self _, zipWith_gcd_self _, zipWith_gcd_self _, ?_⟩
    cases av <;> simp
  · intro a ha
    unfold AxisInfo.join
    rw [if_pos ⟨by decide, ha⟩]

/-- Witness for the C4 theorem at two concrete known rank-1 records and at
the gcd inputs (3, 0) and (3, 5). -/
theorem join_properties_witness :
    AxisInfo.join ⟨[2], [4], [6], some 5⟩ ⟨[4], [6], [8], some 5⟩ =
        AxisInfo.join ⟨[4], [6], [8], some 5⟩ ⟨[2], [4], [6], some 5⟩ ∧
      AxisInfo.join ⟨[2], [4], [6], some 5⟩ ⟨[2], [4], [6], some 5⟩ =
        ⟨[2], [4], [6], some 5⟩ ∧
      AxisInfo.join AxisInfo.unknown ⟨[2], [4], [6], some 5⟩ =
        ⟨[2], [4], [6], some 5⟩ ∧
      gcd 3 0 = 3 ∧
      gcd 3 5 = gcd 5 3 :=
  ⟨join_properties.1 ⟨[2], [4], [6], some 5⟩ ⟨[4], [6], [8], some 5⟩ rfl rfl rfl
      (by decide) (by decide),
    join_properties.2.1 ⟨[2], [4], [6], some 5⟩ rfl,
    join_properties.2.2.1 ⟨[2], [4], [6], some 5⟩ rfl,
    join_properties.2.2.2.1 3 (by decide),
    join_properties.2.2.2.2 3 5 (by decide) (by decide)⟩

/-- C3 counterexample: shape [4], predicate `eq`, lhs fully constant
(constancy 4, contiguity 1, divisibility 4), rhs fully contiguous
(contiguity 4, divisibility 4).  The claim's raise uses the contiguity of
the contiguous operand (the rhs, 4), giving constancy
`max(gcd(4,1), gcd(4, gcd(4,4))) = 4`; the source always uses the lhs's
contiguity (here 1), so the computed constancy is 1. -/
theorem cmp_constancy_counterexample :
    (CmpOpVisitor.getAxisInfo (some [4]) CmpIPredicate.eq
          ⟨[1], [4], [4], none⟩ ⟨[4], [4], [1], none⟩).constancy = [1] ∧
      CmpOpVisitor.notSePredicate CmpIPredicate.eq = true ∧
      isConstantDim ⟨[1], [4], [4], none⟩ [4] 0 = true ∧
      isContiguousDim ⟨[4], [4], [1], none⟩ [4] 0 = true ∧
      gcd (AxisInfo.getContiguity ⟨[4], [4], [1], none⟩ 0)
          (gcd (AxisInfo.getDivisibility ⟨[1], [4], [4], none⟩ 0)
            (AxisInfo.getDivisibility ⟨[4], [4], [1], none⟩ 0)) = 4 ∧
      ([1] : List Int) ≠ [4] := by
  refine ⟨?_, rfl, rfl, rfl, ?_, by decide⟩
  · show [max (gcd 4 1) (gcd 1 (gcd 4 4))] = [1]
    rw [gcd_self_eq, gcd_eq 4 1 (by norm_num) (by norm_num),
      gcd_eq 1 4 (by norm_num) (by norm_num)]
    decide
  · show gcd 4 (gcd 4 4) = 4
    rw [gcd_self_eq, gcd_self_eq]

/-- C3 amended: on a ranked tensor result with at least one operand lacking
a constant value, the compare result's constancy along axis `d` is
`gcd(constancyL, constancyR)`, raised to
`gcd(contiguityL[d], gcd(divisibilityL[d], divisibilityR[d]))` — always the
lhs's contiguity, even in the symmetric case — exactly when the predicate
is not in the ≥ family with lhs fully contiguous and rhs fully constant, or
the predicate is not in the ≤ family with lhs fully constant and rhs fully
contiguous; result contiguity and divisibility are 1 on every axis. -/
theorem cmp_transfer_amended (shape : List Int) (pred : CmpIPredicate)
    (lhs rhs : AxisInfo) (d : Nat) (hd : d < shape.length)
    (h : ¬(lhs.getConstantValue.isSome ∧ rhs.getConstantValue.isSome)) :
    (CmpOpVisitor.getAxisInfo (some shape) pred lhs rhs).constancy.getD d 1 =
        (if (CmpOpVisitor.notGePredicate pred ∧ isContiguousDim lhs shape d ∧
              isConstantDim rhs shape d) ∨
            (CmpOpVisitor.notSePredicate pred ∧ isConstantDim lhs shape d ∧
              isContiguousDim rhs shape d) then
          max (gcd (lhs.getConstancy d) (rhs.getConstancy d))
            (gcd (lhs.getContiguity d)
              (gcd (lhs.getDivisibility d) (rhs.getDivisibility d)))
        else gcd (lhs.getConstancy d) (rhs.getConstancy d)) ∧
      (CmpOpVisitor.getAxisInfo (some shape) pred lhs rhs).contiguity =
        List.replicate shape.length 1 ∧
      (CmpOpVisitor.getAxisInfo (some shape) pred lhs rhs).divisibility =
        List.replicate shape.length 1 := by
  refine ⟨?_, rfl, rfl⟩
  have hlen : d < ((List.range shape.length).map
      (fun d => if lhs.getConstantValue.isSome ∧ rhs.getConstantValue.isSome then
        lhs.getConstancy d
      else
        let constHint := gcd (lhs.getConstancy d) (rhs.getConstancy d)
        if (CmpOpVisitor.notGePredicate pred ∧ isContiguousDim lhs shape d ∧
              isConstantDim rhs shape d) ∨
            (CmpOpVisitor.notSePredicate pred ∧ isConstantDim lhs shape d ∧
              isContiguousDim rhs shape d) then
          max constHint
            (gcd (lhs.getContiguity d)
              (gcd (lhs.getDivisibility d) (rhs.getDivisibility d)))
        else constHint)).length := by
    simpa using hd
  show ((List.range shape.length).map _).getD d 1 = _
  rw [List.getD_eq_getElem _ _ hlen, List.getElem_map, List.getElem_range]
  rw [if_neg h]

/-- Witness for the C3 amended theorem at the counterexample input: the
result's contiguity vector is all-1. -/
theorem cmp_transfer_amended_witness :
    (CmpOpVisitor.getAxisInfo (some [4]) CmpIPredicate.eq
          ⟨[1], [4], [4], none⟩ ⟨[4], [4], [1], none⟩).contiguity =
      List.replicate 1 1 :=
  (cmp_transfer_amended [4] CmpIPredicate.eq ⟨[1], [4], [4], none⟩
      ⟨[4], [4], [1], none⟩ 0 (by decide) (by decide)).2.1

theorem visitStep_of_fixed (rank : Nat) (e : LatticeSlot) (curr : AxisInfo)
    (he : e.fixed = true) : visitStep rank e curr = e := by
  unfold visitStep joinSlot
  split_ifs <;> simp_all

theorem foldl_visitStep_fixed (rank : Nat) (v : AxisInfo)
    (updates : List AxisInfo) :
    List.foldl (visitStep rank) ⟨v, true⟩ updates = ⟨v, true⟩ := by
  induction updates with
  | nil => rfl
  | cons a as ih => rw [List.foldl_cons, visitStep_of_fixed rank _ a rfl, ih]

/-- C8: when the visitor dispatch produces the unknown sentinel (no
matching transfer function), the entry point sets the result slot to the
pessimistic default and marks it permanently fixed, and no later visit-step
or join — with any sequence of transfer results, refined or not — ever
changes that slot again. -/
theorem missing_transfer_permanently_fixed (rank : Nat) (e : LatticeSlot)
    (curr : AxisInfo) (he : e.fixed = false) (hcurr : curr.getRank = 0) :
    visitStep rank e curr = ⟨pessimistic rank, true⟩ ∧
      ∀ updates : List AxisInfo,
        List.foldl (visitStep rank) (visitStep rank e curr) updates =
          ⟨pessimistic rank, true⟩ := by
  have h1 : visitStep rank e curr = ⟨pessimistic rank, true⟩ := by
    unfold visitStep
    rw [if_pos hcurr, if_neg (by simp [he])]
  exact ⟨h1, fun updates => by rw [h1, foldl_visitStep_fixed]⟩

/-- Witness for the C8 theorem: a rank-1 slot that is not yet fixed, hit by
the unknown sentinel and then by a refined known update, stays at the
pessimistic fixed state. -/
theorem missing_transfer_permanently_fixed_witness :
    visitStep 1 ⟨pessimistic 1, false⟩ AxisInfo.unknown =
        ⟨pessimistic 1, true⟩ ∧
      List.foldl (visitStep 1)
          (visitStep 1 ⟨pessimistic 1, false⟩ AxisInfo.unknown)
          [⟨[4], [8], [2], some 5⟩] =
        ⟨pessimistic 1, true⟩ :=
  ⟨(missing_transfer_permanently_fixed 1 ⟨pessimistic 1, false⟩
      AxisInfo.unknown rfl rfl).1,
    (missing_transfer_permanently_fixed 1 ⟨pessimistic 1, false⟩
      AxisInfo.unknown rfl rfl).2 [⟨[4], [8], [2], some 5⟩]⟩

/-- C10: a compare or select whose result is not a ranked tensor yields the
unknown sentinel from its visitor, and the entry point then installs the
permanently-fixed pessimistic default for the result, which no later
visit-step changes. -/
theorem scalar_cmp_select_pessimistic (pred : CmpIPredicate)
    (cond lhs rhs : AxisInfo) (rank : Nat) (e : LatticeSlot)
    (he : e.fixed = false) :
    CmpOpVisitor.getAxisInfo none pred lhs rhs = AxisInfo.unknown ∧
      SelectOpVisitor.getAxisInfo none cond lhs rhs = AxisInfo.unknown ∧
      AxisInfo.unknown.getRank = 0 ∧
      visitStep rank e (CmpOpVisitor.getAxisInfo none pred lhs rhs) =
        ⟨pessimistic rank, true⟩ ∧
      ∀ updates : List AxisInfo,
        List.foldl (visitStep rank)
            (visitStep rank e (CmpOpVisitor.getAxisInfo none pred lhs rhs))
            updates =
          ⟨pessimistic rank, true⟩ := by
  have hstep : visitStep rank e (CmpOpVisitor.getAxisInfo none pred lhs rhs) =
      ⟨pessimistic rank, true⟩ := by
    unfold visitStep
    have hrank : (CmpOpVisitor.getAxisInfo none pred lhs rhs).getRank = 0 := rfl
    rw [if_pos hrank, if_neg (by simp [he])]
  exact ⟨rfl, rfl, rfl, hstep,
    fun updates => by rw [hstep, foldl_visitStep_fixed]⟩

/-- Witness for the C10 theorem at a concrete scalar compare: the visitor
yields the unknown sentinel and an unfixed rank-1 slot becomes the
pessimistic fixed state, unchanged by a later refined update. -/
theorem scalar_cmp_select_pessimistic_witness :
    CmpOpVisitor.getAxisInfo none CmpIPredicate.slt
        ⟨[1], [1], [1], some 2⟩ ⟨[1], [1], [1], some 3⟩ = AxisInfo.unknown ∧
      List.foldl (visitStep 1)
          (visitStep 1 ⟨pessimistic 1, false⟩
            (CmpOpVisitor.getAxisInfo none CmpIPredicate.slt
              ⟨[1], [1], [1], some 2⟩ ⟨[1], [1], [1], some 3⟩))
          [⟨[4], [8], [2], some 5⟩] =
        ⟨pessimistic 1, true⟩ :=
  ⟨(scalar_cmp_select_pessimistic CmpIPredicate.slt ⟨[1], [1], [1], some 1⟩
      ⟨[1], [1], [1], some 2⟩ ⟨[1], [1], [1], some 3⟩ 1
      ⟨pessimistic 1, false⟩ rfl).1,
    (scalar_cmp_select_pessimistic CmpIPredicate.slt ⟨[1], [1], [1], some 1⟩
      ⟨[1], [1], [1], some 2⟩ ⟨[1], [1], [1], some 3⟩ 1
      ⟨pessimistic 1, false⟩ rfl).2.2.2.2 [⟨[4], [8], [2], some 5⟩]⟩

/- Helper bounds for the C9 invariant theorem. -/

theorem getD_one_le (l : List Int) (h : ∀ x ∈ l, 1 ≤ x) (d : Nat) :
    1 ≤ l.getD d 1 := by
  by_cases hd : d < l.length
  · rw [List.getD_eq_getElem _ _ hd]
    exact h _ (List.getElem_mem hd)
  · rw [List.getD_eq_default _ _ (by omega)]

theorem valid_getContiguity {a : AxisInfo} (ha : a.Valid) (d : Nat) :
    1 ≤ a.getContiguity d := getD_one_le _ ha.1 d

theorem valid_getDivisibility {a : AxisInfo} (ha : a.Valid) (d : Nat) :
    1 ≤ a.getDivisibility d := getD_one_le _ ha.2.1 d

theorem valid_getConstancy {a : AxisInfo} (ha : a.Valid) (d : Nat) :
    1 ≤ a.getConstancy d := getD_one_le _ ha.2.2 d

theorem zipWith_gcd_one_le (l1 l2 : List Int) (h1 : ∀ x ∈ l1, 1 ≤ x)
    (h2 : ∀ x ∈ l2, 1 ≤ x) : ∀ x ∈ List.zipWith gcd l1 l2, 1 ≤ x := by
  induction l1 generalizing l2 with
  | nil => intro x hx; simp at hx
  | cons a as ih =>
    cases l2 with
    | nil => intro x hx; simp at hx
    | cons b bs =>
      simp only [List.mem_cons, forall_eq_or_imp] at h1 h2
      intro x hx
      rw [List.zipWith_cons_cons] at hx
      rcases List.mem_cons.mp hx with hx | hx
      · subst hx; exact one_le_gcd h1.1 h2.1
      · exact ih bs h1.2 h2.2 x hx

theorem valid_join {a b : AxisInfo} (ha : a.Valid) (hb : b.Valid) :
    (AxisInfo.join a b).Valid := by
  unfold AxisInfo.join
  split_ifs
  · exact hb
  · exact ha
  · exact ⟨zipWith_gcd_one_le _ _ ha.1 hb.1, zipWith_gcd_one_le _ _ ha.2.1 hb.2.1,
      zipWith_gcd_one_le _ _ ha.2.2 hb.2.2⟩
  · refine ⟨?_, ?_, ?_⟩ <;> intro x hx <;> exact absurd hx (List.not_mem_nil x)

theorem one_le_lowBitNat (n : Nat) : 1 ≤ lowBitNat n := by
  induction n using Nat.strong_induction_on with
  | _ n ih =>
    rw [lowBitNat]
    split_ifs with h0 h2
    · exact le_rfl
    · have := ih (n / 2) (Nat.div_lt_self (Nat.pos_of_ne_zero h0) (by omega))
      omega
    · exact le_rfl

theorem one_le_highestPowOf2Divisor (n : Int) : 1 ≤ highestPowOf2Divisor n := by
  unfold highestPowOf2Divisor
  split_ifs
  · norm_num
  · exact_mod_cast one_le_lowBitNat n.natAbs

theorem mem_insertIdx_cases {x v : Int} :
    ∀ (i : Nat) (l : List Int), x ∈ l.insertIdx i v → x = v ∨ x ∈ l := by
  intro i
  induction i with
  | zero =>
    intro l hx
    rcases List.mem_cons.mp hx with hx | hx
    · exact Or.inl hx
    · exact Or.inr hx
  | succ i ih =>
    intro l hx
    cases l with
    | nil => exact Or.inr hx
    | cons a as =>
      rcases List.mem_cons.mp hx with hx | hx
      · exact Or.inr (List.mem_cons.mpr (Or.inl hx))
      · rcases ih as hx with hx | hx
        · exact Or.inl hx
        · exact Or.inr (List.mem_cons.mpr (Or.inr hx))

theorem one_le_of_mem_range_map {f : Nat → Int} {n : Nat}
    (h : ∀ d, 1 ≤ f d) : ∀ x ∈ (List.range n).map f, 1 ≤ x := by
  intro x hx
  obtain ⟨d, _, rfl⟩ := List.mem_map.mp hx
  exact h d

theorem valid_binGetAxisInfo (cF dF kF : AxisInfo → AxisInfo → Nat → Int)
    (cvF : AxisInfo → AxisInfo → Option Int) (lhs rhs : AxisInfo)
    (hc : ∀ d, 1 ≤ cF lhs rhs d) (hd : ∀ d, 1 ≤ dF lhs rhs d)
    (hk : ∀ d, 1 ≤ kF lhs rhs d) :
    (binGetAxisInfo cF dF kF cvF lhs rhs).Valid :=
  ⟨one_le_of_mem_range_map hc, one_le_of_mem_range_map hd,
    one_le_of_mem_range_map hk⟩

theorem one_le_tdiv_of_dvd {g x : Int} (hg : 1 ≤ g) (hx : 1 ≤ x)
    (hdvd : g ∣ x) : 1 ≤ x.tdiv g := by
  obtain ⟨k, hk⟩ := hdvd
  subst hk
  rw [Int.mul_tdiv_cancel_left k (by omega)]
  by_contra hlt
  push_neg at hlt
  have hk0 : k ≤ 0 := by omega
  nlinarith

theorem one_le_div_getDivisibility {lhs rhs : AxisInfo} (hl : lhs.Valid)
    (hr : rhs.Valid) (d : Nat) : 1 ≤ DivOpVisitor.getDivisibility lhs rhs d := by
  have hx : 1 ≤ lhs.getDivisibility d := valid_getDivisibility hl d
  have hy : 1 ≤ rhs.getDivisibility d := valid_getDivisibility hr d
  have hg : 1 ≤ gcd (lhs.getDivisibility d) (rhs.getDivisibility d) :=
    one_le_gcd hx hy
  have hdx : gcd (lhs.getDivisibility d) (rhs.getDivisibility d) ∣
      lhs.getDivisibility d :=
    gcd_dvd_left_nonneg _ _ (by omega) (by omega)
  have hdy : gcd (lhs.getDivisibility d) (rhs.getDivisibility d) ∣
      rhs.getDivisibility d :=
    gcd_dvd_right_nonneg _ _ (by omega) (by omega)
  exact one_le_gcd (one_le_tdiv_of_dvd hg hx hdx) (one_le_tdiv_of_dvd hg hy hdy)

theorem one_le_add_hooks {lhs rhs : AxisInfo} (hl : lhs.Valid) (hr : rhs.Valid)
    (d : Nat) :
    1 ≤ AddOpVisitor.getContiguity lhs rhs d ∧
      1 ≤ AddOpVisitor.getDivisibility lhs rhs d ∧
      1 ≤ AddOpVisitor.getConstancy lhs rhs d :=
  ⟨le_max_of_le_left
      (one_le_gcd (valid_getConstancy hl d) (valid_getContiguity hr d)),
    one_le_gcd (valid_getDivisibility hl d) (valid_getDivisibility hr d),
    one_le_gcd (valid_getConstancy hl d) (valid_getConstancy hr d)⟩

theorem one_le_sub_hooks {lhs rhs : AxisInfo} (hl : lhs.Valid) (hr : rhs.Valid)
    (d : Nat) :
    1 ≤ SubOpVisitor.getContiguity lhs rhs d ∧
      1 ≤ SubOpVisitor.getDivisibility lhs rhs d ∧
      1 ≤ SubOpVisitor.getConstancy lhs rhs d :=
  ⟨le_max_of_le_left
      (one_le_gcd (valid_getConstancy hl d) (valid_getContiguity hr d)),
    one_le_gcd (valid_getDivisibility hl d) (valid_getDivisibility hr d),
    one_le_gcd (valid_getConstancy hl d) (valid_getConstancy hr d)⟩

theorem one_le_mul_hooks {lhs rhs : AxisInfo} (hl : lhs.Valid) (hr : rhs.Valid)
    (d : Nat) :
    1 ≤ MulIOpVisitor.getContiguity lhs rhs d ∧
      1 ≤ MulIOpVisitor.getDivisibility lhs rhs d ∧
      1 ≤ MulIOpVisitor.getConstancy lhs rhs d := by
  refine ⟨?_, ?_, one_le_gcd (valid_getConstancy hl d) (valid_getConstancy hr d)⟩
  · unfold MulIOpVisitor.getContiguity
    refine le_max_of_le_right ?_
    split_ifs
    · exact valid_getContiguity hr d
    · exact le_rfl
  · unfold MulIOpVisitor.getDivisibility
    have h1 := valid_getDivisibility hl d
    have h2 := valid_getDivisibility hr d
    nlinarith

theorem one_le_div_hooks {lhs rhs : AxisInfo} (resShape : Option (List Int))
    (hl : lhs.Valid) (hr : rhs.Valid) (d : Nat) :
    1 ≤ DivOpVisitor.getContiguity lhs rhs d ∧
      1 ≤ DivOpVisitor.getDivisibility lhs rhs d ∧
      1 ≤ DivOpVisitor.getConstancy resShape lhs rhs d := by
  refine ⟨?_, one_le_div_getDivisibility hl hr d, ?_⟩
  · unfold DivOpVisitor.getContiguity
    split_ifs
    · exact valid_getContiguity hl d
    · exact le_rfl
  · unfold DivOpVisitor.getConstancy
    cases resShape with
    | none => exact le_rfl
    | some shape =>
      dsimp only
      split_ifs
      · exact le_max_of_le_left
          (one_le_gcd (valid_getConstancy hl d) (valid_getConstancy hr d))
      · exact one_le_gcd (valid_getConstancy hl d) (valid_getConstancy hr d)

theorem one_le_rem_hooks {lhs rhs : AxisInfo} (resShape : Option (List Int))
    (hl : lhs.Valid) (hr : rhs.Valid) (d : Nat) :
    1 ≤ RemOpVisitor.getContiguity resShape lhs rhs d ∧
      1 ≤ RemOpVisitor.getDivisibility lhs rhs d ∧
      1 ≤ RemOpVisitor.getConstancy lhs rhs d := by
  refine ⟨?_,
    one_le_gcd (valid_getDivisibility hl d) (valid_getDivisibility hr d),
    one_le_gcd (valid_getConstancy hl d) (valid_getConstancy hr d)⟩
  unfold RemOpVisitor.getContiguity
  cases resShape with
  | none => exact le_rfl
  | some shape =>
    dsimp only
    split_ifs
    · exact le_max_left 1 _
    · exact le_rfl

theorem valid_cmpGetAxisInfo (shape : List Int) (pred : CmpIPredicate)
    {lhs rhs : AxisInfo} (hl : lhs.Valid) (hr : rhs.Valid) :
    (CmpOpVisitor.getAxisInfo (some shape) pred lhs rhs).Valid := by
  unfold CmpOpVisitor.getAxisInfo
  dsimp only
  refine ⟨?_, ?_, ?_⟩
  · intro x hx
    rw [List.eq_of_mem_replicate hx]
  · intro x hx
    rw [List.eq_of_mem_replicate hx]
  · apply one_le_of_mem_range_map
    intro d
    split_ifs
    · exact valid_getConstancy hl d
    · exact le_max_of_le_left
        (one_le_gcd (valid_getConstancy hl d) (valid_getConstancy hr d))
    · exact one_le_gcd (valid_getConstancy hl d) (valid_getConstancy hr d)

theorem valid_selectGetAxisInfo (shape : List Int) {cond lhs rhs : AxisInfo}
    (hc : cond.Valid) (hl : lhs.Valid) (hr : rhs.Valid) :
    (SelectOpVisitor.getAxisInfo (some shape) cond lhs rhs).Valid := by
  unfold SelectOpVisitor.getAxisInfo
  dsimp only
  split_ifs
  · exact ⟨hr.1, hr.2.1, hr.2.2⟩
  · exact ⟨hl.1, hl.2.1, hl.2.2⟩
  · refine ⟨?_, ?_, ?_⟩ <;> apply one_le_of_mem_range_map <;> intro d
    · exact le_min
        (one_le_gcd (valid_getContiguity hl d) (getD_one_le _ hc.2.2 d))
        (one_le_gcd (valid_getContiguity hr d) (getD_one_le _ hc.2.2 d))
    · exact le_min (valid_getDivisibility hl d) (valid_getDivisibility hr d)
    · exact le_min
        (one_le_gcd (valid_getConstancy hl d) (getD_one_le _ hc.2.2 d))
        (one_le_gcd (valid_getConstancy hr d) (getD_one_le _ hc.2.2 d))

theorem valid_makeRangeAxisInfo {s e : Int} (hse : s < e) :
    (makeRangeAxisInfo s e).Valid := by
  refine ⟨?_, ?_, ?_⟩ <;> intro x hx <;> simp [makeRangeAxisInfo] at hx <;>
    subst hx
  · omega
  · exact one_le_highestPowOf2Divisor s
  · exact le_rfl

theorem valid_constantScalarAxisInfo (v : Int) :
    (constantScalarAxisInfo v).Valid := by
  refine ⟨?_, ?_, ?_⟩ <;> intro x hx <;> simp [constantScalarAxisInfo] at hx <;>
    subst hx
  · exact le_rfl
  · exact one_le_highestPowOf2Divisor v
  · exact le_rfl

theorem valid_constantSplatAxisInfo (v : Int) {shape : List Int}
    (hshape : ∀ x ∈ shape, 1 ≤ x) : (constantSplatAxisInfo v shape).Valid := by
  refine ⟨?_, ?_, hshape⟩ <;> intro x hx <;>
    obtain ⟨y, _, rfl⟩ := List.mem_map.mp hx
  · exact le_rfl
  · exact one_le_highestPowOf2Divisor v

theorem valid_splatAxisInfo {retShape : List Int} {opInfo : AxisInfo}
    (hret : ∀ x ∈ retShape, 1 ≤ x) (ho : opInfo.Valid) :
    (splatAxisInfo retShape opInfo).Valid := by
  refine ⟨?_, ?_, hret⟩ <;> intro x hx <;>
    obtain ⟨y, _, rfl⟩ := List.mem_map.mp hx
  · exact le_rfl
  · exact valid_getDivisibility ho 0

theorem valid_expandDimsAxisInfo (axis : Nat) {opInfo : AxisInfo}
    (ho : opInfo.Valid) : (expandDimsAxisInfo axis opInfo).Valid := by
  refine ⟨?_, ?_, ?_⟩ <;> intro x hx
  · rcases mem_insertIdx_cases axis _ hx with h | h
    · omega
    · exact ho.1 x h
  · rcases mem_insertIdx_cases axis _ hx with h | h
    · omega
    · exact ho.2.1 x h
  · rcases mem_insertIdx_cases axis _ hx with h | h
    · omega
    · exact ho.2.2 x h

theorem valid_broadcastAxisInfo {retShape : List Int} (opShape : List Int)
    {opInfo : AxisInfo} (hret : ∀ x ∈ retShape, 1 ≤ x) (ho : opInfo.Valid) :
    (broadcastAxisInfo retShape opShape opInfo).Valid := by
  refine ⟨?_, ?_, ?_⟩ <;> apply one_le_of_mem_range_map <;> intro d
  · split_ifs
    · exact le_rfl
    · exact valid_getContiguity ho d
  · exact valid_getDivisibility ho d
  · split_ifs
    · exact getD_one_le _ hret d
    · exact valid_getConstancy ho d

/-- C9: every known record produced by `join` or by any of the transfer
functions, from operand records whose contiguity, divisibility and
constancy entries are all at least 1 (and with well-formed op parameters:
axis extents at least 1 and a nonempty range), again has every contiguity,
divisibility and constancy entry at least 1. -/
theorem transfer_outputs_all_entries_ge_one
    (lhs rhs cond opInfo : AxisInfo) (resShape : Option (List Int))
    (shape retShape opShape : List Int) (pred : CmpIPredicate)
    (axis : Nat) (s e v : Int)
    (hl : lhs.Valid) (hr : rhs.Valid) (hc : cond.Valid) (ho : opInfo.Valid)
    (hshape : ∀ x ∈ shape, 1 ≤ x) (hret : ∀ x ∈ retShape, 1 ≤ x)
    (hse : s < e) :
    (AxisInfo.join lhs rhs).Valid ∧
      (castAxisInfo opInfo).Valid ∧
      (binGetAxisInfo AddOpVisitor.getContiguity AddOpVisitor.getDivisibility
        AddOpVisitor.getConstancy AddOpVisitor.getConstantValue lhs rhs).Valid ∧
      (binGetAxisInfo SubOpVisitor.getContiguity SubOpVisitor.getDivisibility
        SubOpVisitor.getConstancy SubOpVisitor.getConstantValue lhs rhs).Valid ∧
      (binGetAxisInfo MulIOpVisitor.getContiguity MulIOpVisitor.getDivisibility
        MulIOpVisitor.getConstancy MulIOpVisitor.getConstantValue lhs rhs).Valid ∧
      (binGetAxisInfo DivOpVisitor.getContiguity DivOpVisitor.getDivisibility
        (DivOpVisitor.getConstancy resShape) DivOpVisitor.getConstantValue
        lhs rhs).Valid ∧
      (binGetAxisInfo (RemOpVisitor.getContiguity resShape)
        RemOpVisitor.getDivisibility RemOpVisitor.getConstancy
        RemOpVisitor.getConstantValue lhs rhs).Valid ∧
      (binGetAxisInfo BitwiseOpVisitor.getContiguity
        BitwiseOpVisitor.getDivisibility BitwiseOpVisitor.getConstancy
        BitwiseOpVisitor.andConstantValue lhs rhs).Valid ∧
      (binGetAxisInfo BitwiseOpVisitor.getContiguity
        BitwiseOpVisitor.getDivisibility BitwiseOpVisitor.getConstancy
        BitwiseOpVisitor.orConstantValue lhs rhs).Valid ∧
      (binGetAxisInfo BitwiseOpVisitor.getContiguity
        BitwiseOpVisitor.getDivisibility BitwiseOpVisitor.getConstancy
        BitwiseOpVisitor.xorConstantValue lhs rhs).Valid ∧
      (CmpOpVisitor.getAxisInfo (some shape) pred lhs rhs).Valid ∧
      (SelectOpVisitor.getAxisInfo (some shape) cond lhs rhs).Valid ∧
      (makeRangeAxisInfo s e).Valid ∧
      (constantScalarAxisInfo v).Valid ∧
      (constantSplatAxisInfo v shape).Valid ∧
      (splatAxisInfo retShape opInfo).Valid ∧
      (expandDimsAxisInfo axis opInfo).Valid ∧
      (broadcastAxisInfo retShape opShape opInfo).Valid := by
  refine ⟨valid_join hl hr, ho, ?_, ?_, ?_, ?_, ?_, ?_, ?_, ?_,
    valid_cmpGetAxisInfo shape pred hl hr,
    valid_selectGetAxisInfo shape hc hl hr,
    valid_makeRangeAxisInfo hse,
    valid_constantScalarAxisInfo v,
    valid_constantSplatAxisInfo v hshape,
    valid_splatAxisInfo hret ho,
    valid_expandDimsAxisInfo axis ho,
    valid_broadcastAxisInfo opShape hret ho⟩
  · exact valid_binGetAxisInfo _ _ _ _ lhs rhs
      (fun d => (one_le_add_hooks hl hr d).1)
      (fun d => (one_le_add_hooks hl hr d).2.1)
      (fun d => (one_le_add_hooks hl hr d).2.2)
  · exact valid_binGetAxisInfo _ _ _ _ lhs rhs
      (fun d => (one_le_sub_hooks hl hr d).1)
      (fun d => (one_le_sub_hooks hl hr d).2.1)
      (fun d => (one_le_sub_hooks hl hr d).2.2)
  · exact valid_binGetAxisInfo _ _ _ _ lhs rhs
      (fun d => (one_le_mul_hooks hl hr d).1)
      (fun d => (one_le_mul_hooks hl hr d).2.1)
      (fun d => (one_le_mul_hooks hl hr d).2.2)
  · exact valid_binGetAxisInfo _ _ _ _ lhs rhs
      (fun d => (one_le_div_hooks resShape hl hr d).1)
      (fun d => (one_le_div_hooks resShape hl hr d).2.1)
      (fun d => (one_le_div_hooks resShape hl hr d).2.2)
  · exact valid_binGetAxisInfo _ _ _ _ lhs rhs
      (fun d => (one_le_rem_hooks resShape hl hr d).1)
      (fun d => (one_le_rem_hooks resShape hl hr d).2.1)
      (fun d => (one_le_rem_hooks resShape hl hr d).2.2)
  · exact valid_binGetAxisInfo _ _ _ _ lhs rhs
      (fun _ => le_rfl) (fun _ => le_rfl)
      (fun d => one_le_gcd (valid_getConstancy hl d) (valid_getConstancy hr d))
  · exact valid_binGetAxisInfo _ _ _ _ lhs rhs
      (fun _ => le_rfl) (fun _ => le_rfl)
      (fun d => one_le_gcd (valid_getConstancy hl d) (valid_getConstancy hr d))
  · exact valid_binGetAxisInfo _ _ _ _ lhs rhs
      (fun _ => le_rfl) (fun _ => le_rfl)
      (fun d => one_le_gcd (valid_getConstancy hl d) (valid_getConstancy hr d))

/-- Witness for the C9 theorem at concrete rank-1 operands with entries
(2, 4, 6) and (3, 8, 2), shape [4], predicate `slt`, range [4, 20), and
constant 12: the join result and the select result are valid. -/
theorem transfer_outputs_all_entries_ge_one_witness :
    (AxisInfo.join ⟨[2], [4], [6], none⟩ ⟨[3], [8], [2], none⟩).Valid ∧
      (SelectOpVisitor.getAxisInfo (some [4]) ⟨[1], [1], [2], none⟩
        ⟨[2], [4], [6], none⟩ ⟨[3], [8], [2], none⟩).Valid ∧
      (makeRangeAxisInfo 4 20).Valid :=
  ⟨(transfer_outputs_all_entries_ge_one ⟨[2], [4], [6], none⟩
      ⟨[3], [8], [2], none⟩ ⟨[1], [1], [2], none⟩ ⟨[5], [7], [9], some 3⟩
      (some [4]) [4] [8] [1] CmpIPredicate.slt 0 4 20 12
      (by decide) (by decide) (by decide) (by decide) (by decide) (by decide)
      (by decide)).1,
    (transfer_outputs_all_entries_ge_one ⟨[2], [4], [6], none⟩
      ⟨[3], [8], [2], none⟩ ⟨[1], [1], [2], none⟩ ⟨[5], [7], [9], some 3⟩
      (some [4]) [4] [8] [1] CmpIPredicate.slt 0 4 20 12
      (by decide) (by decide) (by decide) (by decide) (by decide) (by decide)
      (by decide)).2.2.2.2.2.2.2.2.2.2.2.1,
    (transfer_outputs_all_entries_ge_one ⟨[2], [4], [6], none⟩
      ⟨[3], [8], [2], none⟩ ⟨[1], [1], [2], none⟩ ⟨[5], [7], [9], some 3⟩
      (some [4]) [4] [8] [1] CmpIPredicate.slt 0 4 20 12
      (by decide) (by decide) (by decide) (by decide) (by decide) (by decide)
      (by decide)).2.2.2.2.2.2.2.2.2.2.2.2.1⟩

end AxisInfoModel
